import Mathlib

/-!
# Verification of the question-decompose agent

Shallow embedding of the core of the `question_decompose_agent` repository
(`agent.py`, `react_agent.py`, `tools.py`) and proofs about it.

Python strings are modelled as `List Char`; Python `dict` values flowing
through the pipeline are modelled by the inductive `Json` type below, with
objects as association lists (Python dicts have unique keys, `List.lookup`
returns the first binding).  The external `json.loads` library routine is
abstracted as a parameter `parse : Str → Option Json` (`none` models
`json.JSONDecodeError`); `json.dumps` followed by a later `json.loads` of
the same data is modelled as the identity on the `Json` value.  Exceptions
are modelled with `Except`: a gateway/model call that can raise is an
`Except Str Str` value, and a Python function that can let an exception
escape returns `Except Str _`.
-/

/-- A Python string, modelled as its list of characters. -/
abbrev Str := List Char

/-- Conversion from a Lean string literal to the `Str` model. -/
def strL (s : String) : Str := s.data

/-- A JSON value (Python object produced by `json.loads`).  Numbers are
modelled as integers, which covers every number appearing in this code
base (`id` fields and the like). -/
inductive Json where
  | null : Json
  | bool (b : Bool) : Json
  | num (n : Int) : Json
  | str (s : Str) : Json
  | arr (elems : List Json) : Json
  | obj (fields : List (String × Json)) : Json

/-- Python truthiness of a JSON value (`if is_complex:`). -/
def pyTruthy : Json → Bool
  | .null => false
  | .bool b => b
  | .num n => decide (n ≠ 0)
  | .str s => !s.isEmpty
  | .arr l => !l.isEmpty
  | .obj l => !l.isEmpty

/-- Python `d.get(key, default)` on a dict modelled as an association list. -/
def objGet (kvs : List (String × Json)) (k : String) (d : Json) : Json :=
  (List.lookup k kvs).getD d

/-- Lookup of a key in a JSON value that is an object; `none` when the key is
absent or the value is not an object. -/
def jLookup (r : Json) (k : String) : Option Json :=
  match r with
  | .obj kvs => List.lookup k kvs
  | _ => none

/-! ## Python string primitives used by the source -/

/-- Index of the first occurrence of `c` (Python `s.find(c)` for a one-character
needle; `none` models `-1`). -/
def idxFirst : Str → Char → Option Nat
  | [], _ => none
  | a :: t, c => if a = c then some 0 else (idxFirst t c).map (· + 1)

/-- Index of the last occurrence of `c` (Python `s.rfind(c)`; `none` models `-1`). -/
def idxLast : Str → Char → Option Nat
  | [], _ => none
  | a :: t, c =>
    match idxLast t c with
    | some j => some (j + 1)
    | none => if a = c then some 0 else none

/-- Index of the first occurrence of the substring `pat` (Python `s.find(pat)`
for a string needle; `none` models `-1`, so `(subFind pat s).isSome` is
Python `pat in s`). -/
def subFind (pat : Str) : Str → Option Nat
  | [] => if pat.isPrefixOf ([] : Str) then some 0 else none
  | a :: t =>
    if pat.isPrefixOf (a :: t) then some 0
    else (subFind pat t).map (· + 1)

/-- Python `pat in s`. -/
def containsSub (s pat : Str) : Bool := (subFind pat s).isSome

/-- The whitespace characters stripped by Python `str.strip()` (the ASCII
range of `str.isspace()`, which is all that occurs here). -/
def isPyWS (c : Char) : Bool :=
  c = ' ' || c = '\t' || c = '\n' || c = '\r' || c = '\x0b' || c = '\x0c'

/-- Python `s.strip()`. -/
def pyStrip (s : Str) : Str :=
  ((s.dropWhile isPyWS).reverse.dropWhile isPyWS).reverse

/-- Python slice `s[i:j]` for in-range indices. -/
def pySlice (s : Str) (i j : Nat) : Str := (s.take j).drop i

/-- Python `s.lower()` (ASCII case folding, which is all the source compares). -/
def pyLower (s : Str) : Str := s.map Char.toLower

/-! ## Structured extraction (`react_agent.py`, `ReActAgent.process`, lines 108-132)

The source locates the first `{` and last `}` (restricted to the text after
the first occurrence of the marker `"Final Answer:"` when the marker is
present, stripped) and parses the resulting span with `json.loads`.  Python's
`find`/`rfind` return `-1` on a miss; the source guards with
`json_start >= 0 and json_end > json_start` where `json_end = rfind + 1`,
which under the `Option Nat` model is exactly `i ≤ j` on the two indices. -/

/-- The literal marker searched for in the model output. -/
def finalAnswerMarker : Str := strL "Final Answer:"

/-- The first-`{`-to-last-`}` span of a text, or `none` when the guard
`json_start >= 0 and json_end > json_start` fails. -/
def spanOf (t : Str) : Option Str :=
  match idxFirst t '{', idxLast t '}' with
  | some i, some j => if i ≤ j then some (pySlice t i (j + 1)) else none
  | _, _ => none

/-- The brace span the source submits to `json.loads`: when the marker occurs,
the span of the stripped text after the marker's first occurrence; otherwise
the span of the whole output. -/
def extractSpan (output : Str) : Option Str :=
  match subFind finalAnswerMarker output with
  | some k => spanOf (pyStrip (output.drop (k + finalAnswerMarker.length)))
  | none => spanOf output

/-- Structured extraction: brace span plus JSON parsing (`json.loads` is the
abstract parameter `parse`). -/
def reactExtractJson (parse : Str → Option Json) (output : Str) : Option Json :=
  (extractSpan output).bind parse

/-! ## Result normalizer (`react_agent.py`, `ReActAgent._format_final_result`) -/

/-- The synthesized fallback sub-problem `{'id': 1, 'content': query,
'type': '原始问题', 'dependencies': []}` (react_agent.py lines 172-177 and
agent.py lines 94-99). -/
def origElem (q : Str) : Json :=
  .obj [("id", .num 1), ("content", .str q),
        ("type", .str (strL "原始问题")), ("dependencies", .arr [])]

/-- The `is_complex` coercion of `_format_final_result`: a string value is
replaced by the boolean `value.lower() == "true"`; any other value is kept. -/
def coerceIsComplex (v : Json) : Json :=
  match v with
  | .str s => .bool (decide (pyLower s = strL "true"))
  | v => v

/-- `ReActAgent._format_final_result` (react_agent.py lines 150-187). -/
def formatFinalResult (q : Str) (result : List (String × Json)) : Json :=
  let is_complex := coerceIsComplex (objGet result "is_complex" (.bool false))
  let sub_problems : Json :=
    match List.lookup "sub_problems" result with
    | some v => v
    | none => if pyTruthy is_complex then .arr [origElem q] else .arr []
  .obj [("original_query", .str q),
        ("is_complex", is_complex),
        ("sub_problems", sub_problems),
        ("complexity_analysis",
          .obj [("reason", objGet result "reason" (.str [])),
                ("indicators", objGet result "indicators" (.arr []))])]

/-! ## `ReActAgent.process` (react_agent.py lines 78-148)

The LangChain invocation and the output-field extraction of lines 89-106 are
abstracted into `invoke : Except Str Str`: an exception raised by the model
call (caught by the `except Exception` at line 142) or the final output text.
A successful `json.loads` of a `{...}` span is always a dict; a hypothetical
non-dict value would make `result.get` raise `AttributeError` inside
`_format_final_result`, which the outer handler also converts to the error
dictionary, and the model keeps that branch for faithfulness. -/

/-- The error dictionary returned by the `except Exception` handlers
(react_agent.py lines 143-148 and agent.py lines 40-45). -/
def errorResult (q e : Str) : Json :=
  .obj [("original_query", .str q), ("is_complex", .null),
        ("sub_problems", .arr []), ("error", .str e)]

/-- The fallback returned when extraction fails (react_agent.py lines 135-140). -/
def rawResult (q output : Str) : Json :=
  .obj [("original_query", .str q), ("is_complex", .null),
        ("sub_problems", .arr []), ("raw_output", .str output)]

/-- Message of the `AttributeError` raised by `dict.get` on a non-dict. -/
def attributeErrorMsg : Str := strL "AttributeError"

/-- `ReActAgent.process`. -/
def reactProcess (parse : Str → Option Json) (q : Str)
    (invoke : Except Str Str) : Json :=
  match invoke with
  | .error e => errorResult q e
  | .ok output =>
    match reactExtractJson parse output with
    | some (.obj kvs) => formatFinalResult q kvs
    | some _ => errorResult q attributeErrorMsg
    | none => rawResult q output

/-- `ReActQuestionDecomposeAgent.process` (agent.py lines 26-45): wraps
`ReActAgent.process` in `try/except`.  Since `ReActAgent.process` already
catches every exception internally (its embedding is a total function), the
wrapper's handler is unreachable and the wrapper returns the inner result. -/
def reactQDAProcess (parse : Str → Option Json) (q : Str)
    (invoke : Except Str Str) : Json :=
  reactProcess parse q invoke

/-! ## Capability tools (`tools.py`)

Each tool sends a fixed-template prompt to the model and parses the response
body directly with `json.loads`; `content` below is the model's response text
`response.content`.  The Python tool returns `json.dumps(result)`; the dump
is abstracted away and the tool's embedding returns the `Json` value whose
dump the Python code returns. -/

/-- `ComplexityCheckTool._run` (tools.py lines 41-75), given the model
response text. -/
def complexityCheckRun (parse : Str → Option Json) (content : Str) : Json :=
  match parse content with
  | some r => r
  | none =>
    .obj [("is_complex", .bool false),
          ("reason", .str (strL "解析失败，默认为简单问题")),
          ("indicators", .arr []),
          ("raw_response", .str content)]

/-- `ProblemDecomposeTool._run` (tools.py lines 98-144), given the model
response text and the query. -/
def problemDecomposeRun (parse : Str → Option Json) (content q : Str) : Json :=
  match parse content with
  | some r => r
  | none =>
    .obj [("sub_problems", .arr [
            .obj [("id", .num 1), ("content", .str q),
                  ("type", .str (strL "原始问题")), ("dependencies", .arr []),
                  ("note", .str (strL "解析失败，返回原始问题"))]]),
          ("raw_response", .str content)]

/-! ## `SimpleQuestionDecomposeAgent.process` (agent.py lines 48-118)

The two tool invocations each perform one model-gateway round trip and can
raise (`llm.invoke` inside `_run` has no handler, and neither does
`process`), so they are modelled as `Except Str Str` values carrying either
the exception or the JSON text the tool returned.  `process` itself has no
`try/except` around them: a gateway exception propagates to the caller,
which the embedding renders as an `Except.error` return. -/

/-- The single `'简单问题'` element built for a simple query
(agent.py lines 102-107). -/
def simpleElem (q : Str) : Json :=
  .obj [("id", .num 1), ("content", .str q),
        ("type", .str (strL "简单问题")), ("dependencies", .arr [])]

/-- The final dictionary of `SimpleQuestionDecomposeAgent.process`
(agent.py lines 110-118). -/
def simpleResult (q : Str) (is_complex sub_problems reason indicators : Json) : Json :=
  .obj [("original_query", .str q),
        ("is_complex", is_complex),
        ("sub_problems", sub_problems),
        ("complexity_analysis",
          .obj [("reason", reason), ("indicators", indicators)])]

/-- `SimpleQuestionDecomposeAgent.process`.  `compRun`/`decompRun` are the
outcomes of the two tool calls (exception or returned JSON text), `parse` is
`json.loads`.  A non-dict parse result makes the subsequent `.get` raise
`AttributeError`, which propagates. -/
def simpleProcess (parse : Str → Option Json) (compRun decompRun : Except Str Str)
    (q : Str) : Except Str Json :=
  match compRun with
  | .error e => .error e
  | .ok compStr =>
    let complexity_result : Json :=
      match parse compStr with
      | some r => r
      | none =>
        .obj [("is_complex", .bool false), ("reason", .str (strL "解析失败")),
              ("indicators", .arr [])]
    match complexity_result with
    | .obj ckvs =>
      let is_complex := objGet ckvs "is_complex" (.bool false)
      let reason := objGet ckvs "reason" (.str [])
      let indicators := objGet ckvs "indicators" (.arr [])
      if pyTruthy is_complex then
        match decompRun with
        | .error e => .error e
        | .ok decompStr =>
          match parse decompStr with
          | some (.obj dkvs) =>
            .ok (simpleResult q is_complex (objGet dkvs "sub_problems" (.arr []))
                  reason indicators)
          | some _ => .error attributeErrorMsg
          | none =>
            .ok (simpleResult q is_complex (.arr [origElem q]) reason indicators)
      else
        .ok (simpleResult q is_complex (.arr [simpleElem q]) reason indicators)
    | _ => .error attributeErrorMsg

/-! ## Agent Loop (modelled from the spec)

The reasoning-acting-observing loop itself lives in the external
`langchain.agents.create_agent` runtime; `react_agent.py` (lines 69-76)
only configures and invokes it.  The loop is therefore modelled from the
spec, §4.5. -/

/-- Outcome of the agent loop: a final answer text with the transcript, or a
degraded result carrying only the raw transcript (no structured verdict). -/
inductive LoopResult where
  | final (text : Str) (transcript : List Str) : LoopResult
  | degraded (transcript : List Str) : LoopResult

/-- Modelled from the spec: the Agent Loop of §4.5, which is implemented by
the external agent runtime and not by code under `src/`.  Each
reasoning-acting-observing cycle sends the running transcript to the model
gateway and appends the response; a response containing the final-answer
marker exits the loop with that text, and a hard iteration cap bounds the
number of cycles, after which the loop terminates with a degraded result
carrying the raw transcript and no structured verdict. -/
def agentLoop (gateway : List Str → Str) : Nat → List Str → LoopResult
  | 0, transcript => .degraded transcript
  | n + 1, transcript =>
    let resp := gateway transcript
    if containsSub resp finalAnswerMarker then .final resp (transcript ++ [resp])
    else agentLoop gateway n (transcript ++ [resp])

/-! ## Schema conformance (spec §6, amended to the code's behaviour) -/

/-- The output shape `ReActAgent.process` actually guarantees on every path:
an object carrying `original_query` equal to the input and the keys
`is_complex` and `sub_problems`; `complexity_analysis`, when present, is an
object with the keys `reason` and `indicators`, and when it is absent the
result is one of the two failure shapes (`is_complex` null together with a
`raw_output` or `error` string). -/
def checkSchema (q : Str) (r : Json) : Bool :=
  match r with
  | .obj kvs =>
    (match List.lookup "original_query" kvs with
     | some (.str s) => decide (s = q)
     | _ => false) &&
    (List.lookup "is_complex" kvs).isSome &&
    (List.lookup "sub_problems" kvs).isSome &&
    (match List.lookup "complexity_analysis" kvs with
     | some (.obj ca) =>
       (List.lookup "reason" ca).isSome && (List.lookup "indicators" ca).isSome
     | some _ => false
     | none =>
       (match List.lookup "is_complex" kvs with
        | some .null => true
        | _ => false) &&
       ((List.lookup "raw_output" kvs).isSome || (List.lookup "error" kvs).isSome))
  | _ => false

/-! ## Helper lemmas about the string primitives -/

/-- `subFind` returns the first occurrence: if `pat` occurs at `k` and at no
earlier index, `subFind` finds exactly `k`. -/
theorem subFind_eq_some_of (pat l : Str) (k : Nat)
    (h1 : pat.isPrefixOf (l.drop k) = true)
    (h2 : ∀ i < k, pat.isPrefixOf (l.drop i) = false) :
    subFind pat l = some k := by
  induction l generalizing k with
  | nil =>
    cases k with
    | zero => simpa [subFind] using h1
    | succ k' =>
      have h0 := h2 0 (Nat.succ_pos k')
      simp at h0 h1
      rw [h1] at h0
      cases h0
  | cons a t ih =>
    cases k with
    | zero => simpa [subFind] using h1
    | succ k' =>
      have h0 := h2 0 (Nat.succ_pos k')
      simp only [List.drop_zero] at h0
      have ht : subFind pat t = some k' := by
        apply ih
        · simpa using h1
        · intro i hi
          simpa using h2 (i + 1) (Nat.succ_lt_succ hi)
      simp [subFind, h0, ht]

/-- `subFind` misses when `pat` occurs at no index at all (indices past the
end carry no occurrence either, since dropping there yields `[]`). -/
theorem subFind_eq_none_of (pat l : Str)
    (h : ∀ i < l.length + 1, pat.isPrefixOf (l.drop i) = false) :
    subFind pat l = none := by
  induction l with
  | nil =>
    have h0 := h 0 (Nat.succ_pos 0)
    simp at h0
    simp [subFind, h0]
  | cons a t ih =>
    have h0 := h 0 (Nat.succ_pos _)
    simp only [List.drop_zero] at h0
    have ht : subFind pat t = none := by
      apply ih
      intro i hi
      simpa using h (i + 1) (Nat.succ_lt_succ hi)
    simp [subFind, h0, ht]

/-- First occurrence of a character after a prefix avoiding it. -/
theorem idxFirst_append (a r : Str) (c : Char) (ha : c ∉ a) :
    idxFirst (a ++ c :: r) c = some a.length := by
  induction a with
  | nil => simp [idxFirst]
  | cons d a' ih =>
    have hd : d ≠ c := fun hdc => ha (hdc ▸ List.mem_cons_self d a')
    have ha' : c ∉ a' := fun hc => ha (List.mem_cons_of_mem d hc)
    simp [idxFirst, hd, ih ha']

/-- `idxLast` misses on a list not containing the character. -/
theorem idxLast_eq_none (l : Str) (c : Char) (h : c ∉ l) :
    idxLast l c = none := by
  induction l with
  | nil => rfl
  | cons d t ih =>
    have hd : d ≠ c := fun hdc => h (hdc ▸ List.mem_cons_self d t)
    have ht : c ∉ t := fun hc => h (List.mem_cons_of_mem d hc)
    simp [idxLast, ih ht, hd]

/-- Last occurrence of a character followed by a suffix avoiding it. -/
theorem idxLast_append (x b : Str) (c : Char) (hb : c ∉ b) :
    idxLast (x ++ c :: b) c = some x.length := by
  induction x with
  | nil => simp [idxLast, idxLast_eq_none b c hb]
  | cons d x' ih => simp [idxLast, ih]

/-- Slicing out the part of a concatenation that follows `a`. -/
theorem pySlice_append (a u : Str) (n : Nat) :
    pySlice (a ++ u) a.length (a.length + n) = u.take n := by
  induction a with
  | nil => simp [pySlice]
  | cons d a' ih =>
    simpa [pySlice, Nat.succ_add] using ih

/-- Taking one element past an initial segment. -/
theorem take_append_cons (m b : Str) (c : Char) :
    (m ++ c :: b).take (m.length + 1) = m ++ [c] := by
  induction m with
  | nil => simp
  | cons d m' ih => simp [ih]

/-- The greedy first-`{`-to-last-`}` span of a text decomposed around such a
pair of braces. -/
theorem spanOf_decomp (a m b : Str) (ha : '{' ∉ a) (hb : '}' ∉ b) :
    spanOf (a ++ '{' :: (m ++ '}' :: b)) = some ('{' :: (m ++ ['}'])) := by
  have h1 : idxFirst (a ++ '{' :: (m ++ '}' :: b)) '{' = some a.length :=
    idxFirst_append a _ '{' ha
  have heq : a ++ '{' :: (m ++ '}' :: b) = (a ++ '{' :: m) ++ '}' :: b := by
    simp
  have h2 : idxLast (a ++ '{' :: (m ++ '}' :: b)) '}'
      = some (a.length + (m.length + 1)) := by
    rw [heq, idxLast_append _ _ '}' hb]
    simp
  have hslice : pySlice (a ++ '{' :: (m ++ '}' :: b)) a.length
      (a.length + (m.length + 1) + 1) = '{' :: (m ++ ['}']) := by
    rw [show a.length + (m.length + 1) + 1 = a.length + (m.length + 2) by omega]
    rw [pySlice_append a ('{' :: (m ++ '}' :: b)) (m.length + 2)]
    rw [show m.length + 2 = m.length + 1 + 1 by omega, List.take_succ_cons]
    rw [take_append_cons m b '}']
  simp only [spanOf, h1, h2]
  rw [if_pos (by omega)]
  rw [hslice]

/-! ## Claims -/

/-- C5: structured extraction takes the substring from the first `{` to the
last `}` of the searched region and parses it as JSON; when the marker
`"Final Answer:"` occurs (even several times) the searched region is the text
following the marker's first occurrence, when it is absent the whole text is
searched, and prose followed by a trailing JSON object has that object
recovered. -/
theorem C5_extraction :
    (∀ (parse : Str → Option Json) (output : Str) (k : Nat),
        finalAnswerMarker.isPrefixOf (output.drop k) = true →
        (∀ i < k, finalAnswerMarker.isPrefixOf (output.drop i) = false) →
        reactExtractJson parse output
          = (spanOf (pyStrip (output.drop (k + finalAnswerMarker.length)))).bind parse)
    ∧ (∀ (parse : Str → Option Json) (output : Str),
        (∀ i < output.length + 1,
          finalAnswerMarker.isPrefixOf (output.drop i) = false) →
        reactExtractJson parse output = (spanOf output).bind parse)
    ∧ (∀ a m b : Str, '{' ∉ a → '}' ∉ b →
        spanOf (a ++ '{' :: (m ++ '}' :: b)) = some ('{' :: (m ++ ['}'])))
    ∧ extractSpan (strL "I think this is simple: \x7b\"is_complex\": false, \"reason\": \"ok\"\x7d")
        = some (strL "\x7b\"is_complex\": false, \"reason\": \"ok\"\x7d") := by
  refine ⟨?_, ?_, ?_, by decide⟩
  · intro parse output k h1 h2
    simp [reactExtractJson, extractSpan, subFind_eq_some_of _ _ _ h1 h2]
  · intro parse output h
    simp [reactExtractJson, extractSpan, subFind_eq_none_of _ _ h]
  · exact spanOf_decomp

/-- Witness for C5 at concrete inputs: a text whose first of two markers
bounds the searched region, a marker-free text, and a concrete brace
decomposition. -/
theorem C5_witness :
    reactExtractJson (fun s => some (Json.str s))
        (strL "x Final Answer: \x7b\"a\": 1\x7dy Final Answer: z\x7d")
        = (spanOf (pyStrip ((strL "x Final Answer: \x7b\"a\": 1\x7dy Final Answer: z\x7d").drop
            (2 + finalAnswerMarker.length)))).bind (fun s => some (Json.str s))
    ∧ reactExtractJson (fun s => some (Json.str s))
        (strL "I think this is simple: \x7b\"is_complex\": false, \"reason\": \"ok\"\x7d")
        = (spanOf (strL "I think this is simple: \x7b\"is_complex\": false, \"reason\": \"ok\"\x7d")).bind
            (fun s => some (Json.str s))
    ∧ spanOf (strL "ab" ++ '{' :: (strL "x: 1" ++ '}' :: strL "cd"))
        = some ('{' :: (strL "x: 1" ++ ['}'])) :=
  ⟨C5_extraction.1 (fun s => some (Json.str s)) _ 2 (by decide) (by decide),
   C5_extraction.2.1 (fun s => some (Json.str s)) _ (by decide),
   C5_extraction.2.2.1 _ _ _ (by decide) (by decide)⟩

/-- C6: when structured extraction fails entirely (no brace span, or the span
is not valid JSON), `ReActAgent.process` returns a result with `is_complex`
null, an empty `sub_problems` sequence, and the raw unparsed model text
attached as `raw_output`; the fallback is a total function and never
raises. -/
theorem C6_extraction_failure :
    ∀ (parse : Str → Option Json) (q output : Str),
      reactExtractJson parse output = none →
      reactProcess parse q (Except.ok output)
        = Json.obj [("original_query", Json.str q), ("is_complex", Json.null),
                    ("sub_problems", Json.arr []), ("raw_output", Json.str output)] := by
  intro parse q output h
  simp [reactProcess, h, rawResult]

/-- Witness for C6: a brace-free output with a parser that always fails. -/
theorem C6_witness :
    reactProcess (fun _ => none) (strL "q") (Except.ok (strL "no json here"))
      = Json.obj [("original_query", Json.str (strL "q")), ("is_complex", Json.null),
                  ("sub_problems", Json.arr []),
                  ("raw_output", Json.str (strL "no json here"))] :=
  C6_extraction_failure (fun _ => none) (strL "q") (strL "no json here") rfl

/-- C7: the Agent Loop (modelled from spec §4.5; the loop itself lives in the
external agent runtime) has a hard iteration cap: against a gateway that
never emits the final-answer marker it terminates after exactly the
configured cap of reasoning-acting-observing cycles and returns a degraded
result carrying the raw transcript (one observation per cycle) and no
structured verdict. -/
theorem C7_iteration_cap :
    ∀ (gateway : List Str → Str) (cap : Nat) (transcript : List Str),
      (∀ tr, containsSub (gateway tr) finalAnswerMarker = false) →
      ∃ tr', agentLoop gateway cap transcript = LoopResult.degraded tr'
        ∧ tr'.length = transcript.length + cap := by
  intro gateway cap
  induction cap with
  | zero => intro tr _; exact ⟨tr, rfl, rfl⟩
  | succ n ih =>
    intro tr h
    obtain ⟨tr', h1, h2⟩ := ih (tr ++ [gateway tr]) h
    refine ⟨tr', ?_, ?_⟩
    · simp [agentLoop, h tr, h1]
    · simp at h2
      omega

/-- Witness for C7: a gateway that always answers with a thought and no
final-answer marker, cap 3, empty initial transcript. -/
theorem C7_witness :
    ∃ tr', agentLoop (fun _ => strL "Thought: still thinking") 3 []
        = LoopResult.degraded tr' ∧ tr'.length = List.length ([] : List Str) + 3 := by
  apply C7_iteration_cap
  intro tr
  show containsSub (strL "Thought: still thinking") finalAnswerMarker = false
  decide

/-- C8: when the complexity classification tool's model response fails to
parse as JSON, the tool returns the default verdict with `is_complex` false,
a parse-failure reason, empty indicators, and the raw response text for
diagnostics; the fallback is a total function and never raises. -/
theorem C8_complexity_parse_fallback :
    ∀ (parse : Str → Option Json) (content : Str),
      parse content = none →
      complexityCheckRun parse content
        = Json.obj [("is_complex", Json.bool false),
                    ("reason", Json.str (strL "解析失败，默认为简单问题")),
                    ("indicators", Json.arr []),
                    ("raw_response", Json.str content)] := by
  intro parse content h
  simp [complexityCheckRun, h]

/-- Witness for C8: a non-JSON model response with a parser that fails. -/
theorem C8_witness :
    complexityCheckRun (fun _ => none) (strL "I cannot answer that")
      = Json.obj [("is_complex", Json.bool false),
                  ("reason", Json.str (strL "解析失败，默认为简单问题")),
                  ("indicators", Json.arr []),
                  ("raw_response", Json.str (strL "I cannot answer that"))] :=
  C8_complexity_parse_fallback (fun _ => none) (strL "I cannot answer that") rfl

/-- C9: when the problem decomposition tool's model response fails to parse
as JSON, the tool returns a single-element sub-problem sequence whose one
element has id 1, content equal to the original query verbatim, the
original-question type tag (the source's `'原始问题'`), and no dependencies
(the source adds a diagnostic `note` field); the fallback is a total function
and never raises. -/
theorem C9_decompose_parse_fallback :
    ∀ (parse : Str → Option Json) (content q : Str),
      parse content = none →
      jLookup (problemDecomposeRun parse content q) "sub_problems"
        = some (Json.arr [Json.obj
            [("id", Json.num 1), ("content", Json.str q),
             ("type", Json.str (strL "原始问题")), ("dependencies", Json.arr []),
             ("note", Json.str (strL "解析失败，返回原始问题"))]]) := by
  intro parse content q h
  simp [problemDecomposeRun, h, jLookup]

/-- Witness for C9: a non-JSON model response with a parser that fails. -/
theorem C9_witness :
    jLookup (problemDecomposeRun (fun _ => none) (strL "no structure")
        (strL "帮我找北京的酒店和机票")) "sub_problems"
      = some (Json.arr [Json.obj
          [("id", Json.num 1), ("content", Json.str (strL "帮我找北京的酒店和机票")),
           ("type", Json.str (strL "原始问题")), ("dependencies", Json.arr []),
           ("note", Json.str (strL "解析失败，返回原始问题"))]]) :=
  C9_decompose_parse_fallback (fun _ => none) (strL "no structure")
    (strL "帮我找北京的酒店和机票") rfl

/-- C10: the result normalizer fills `complexity_analysis.reason` and
`complexity_analysis.indicators` only from the top-level keys `reason` and
`indicators` of the extracted object; when the model instead nests them
inside a `complexity_analysis` sub-object (the format the agent's own system
prompt requests), the top-level keys are absent and the returned
`complexity_analysis` has an empty reason string and an empty indicators
list. -/
theorem C10_toplevel_only :
    ∀ (q : Str) (ext : List (String × Json)),
      List.lookup "reason" ext = none →
      List.lookup "indicators" ext = none →
      jLookup (formatFinalResult q ext) "complexity_analysis"
        = some (Json.obj [("reason", Json.str []), ("indicators", Json.arr [])]) := by
  intro q ext h1 h2
  simp only [formatFinalResult, jLookup, objGet, h1, h2]
  rfl

/-- Witness for C10: an extracted object in the prompt-requested nested
format, whose analysis is nevertheless returned empty. -/
theorem C10_witness :
    jLookup (formatFinalResult (strL "为什么房价会上涨？")
        [("is_complex", Json.bool true),
         ("complexity_analysis", Json.obj
            [("reason", Json.str (strL "需要推理")),
             ("indicators", Json.arr [Json.str (strL "推理判断")])])])
        "complexity_analysis"
      = some (Json.obj [("reason", Json.str []), ("indicators", Json.arr [])]) :=
  C10_toplevel_only (strL "为什么房价会上涨？") _ rfl rfl

/-- C1 (amended): the ReAct pipeline never raises — `reactQDAProcess` is a
total function that always returns a dictionary whose `original_query` is the
input, and on any internal exception (in particular a transport failure of
the model call) it returns exactly the error dictionary with `is_complex`
null, empty `sub_problems` and the exception message as `error`.
`SimpleQuestionDecomposeAgent.process`, by contrast, has no exception
handler and propagates a gateway exception raised during its first tool
call. -/
theorem C1_process_error_handling :
    (∀ (parse : Str → Option Json) (q e : Str),
        reactQDAProcess parse q (Except.error e) = errorResult q e)
    ∧ (∀ (parse : Str → Option Json) (q : Str) (invoke : Except Str Str),
        jLookup (reactQDAProcess parse q invoke) "original_query"
          = some (Json.str q))
    ∧ (∀ (parse : Str → Option Json) (decompRun : Except Str Str) (q e : Str),
        simpleProcess parse (Except.error e) decompRun q = Except.error e) := by
  refine ⟨fun _ _ _ => rfl, ?_, fun _ _ _ _ => rfl⟩
  intro parse q invoke
  cases invoke with
  | error e => rfl
  | ok output =>
    cases h : reactExtractJson parse output with
    | none =>
      simp only [reactQDAProcess, reactProcess, h]
      rfl
    | some j =>
      cases j <;> simp only [reactQDAProcess, reactProcess, h] <;> rfl

/-- Counterexample to C1 as stated: `SimpleQuestionDecomposeAgent.process`
(one of the claim's two cited `process` implementations) propagates a
gateway exception raised on the first model call instead of returning an
error dictionary. -/
theorem C1_simple_agent_raises_cex :
    simpleProcess (fun _ => none)
        (Except.error (strL "TransportError: endpoint unreachable"))
        (Except.ok []) (strL "帮我找北京的酒店和机票")
      = Except.error (strL "TransportError: endpoint unreachable") := rfl

/-- C2 (amended): on every path, `ReActAgent.process` returns an object whose
`original_query` equals the input and which carries the keys `is_complex` and
`sub_problems`; `complexity_analysis` (an object with the keys `reason` and
`indicators`) is present exactly on the successful-extraction path, and when
it is absent the result is a failure shape with `is_complex` null and a
`raw_output` or `error` string.  (As stated, the claim fails: the failure
paths omit `complexity_analysis`, and a successfully extracted non-boolean
non-string `is_complex` value or non-string `reason` is passed through
verbatim.) -/
theorem C2_schema_amended :
    ∀ (parse : Str → Option Json) (q : Str) (invoke : Except Str Str),
      checkSchema q (reactProcess parse q invoke) = true := by
  intro parse q invoke
  cases invoke with
  | error e => simp [reactProcess, errorResult, checkSchema, List.lookup]
  | ok output =>
    cases h : reactExtractJson parse output with
    | none => simp [reactProcess, h, rawResult, checkSchema, List.lookup]
    | some j =>
      cases j with
      | obj kvs => simp [reactProcess, h, formatFinalResult, checkSchema, List.lookup]
      | null => simp [reactProcess, h, errorResult, checkSchema, List.lookup]
      | bool b => simp [reactProcess, h, errorResult, checkSchema, List.lookup]
      | num n => simp [reactProcess, h, errorResult, checkSchema, List.lookup]
      | str s => simp [reactProcess, h, errorResult, checkSchema, List.lookup]
      | arr l => simp [reactProcess, h, errorResult, checkSchema, List.lookup]

/-- Counterexample to C2 as stated: the internal-error path omits the
required key `complexity_analysis` entirely, and on the success path a
model-supplied `"is_complex": 5` survives as a value outside
{true, false, null} while `reason` need not be a string. -/
theorem C2_schema_cex :
    jLookup (reactProcess (fun _ => none) (strL "q")
        (Except.error (strL "boom"))) "complexity_analysis" = none
    ∧ jLookup (reactProcess
        (fun _ => some (Json.obj [("is_complex", Json.num 5), ("reason", Json.num 7)]))
        (strL "q") (Except.ok (strL "\x7bx\x7d"))) "is_complex" = some (Json.num 5)
    ∧ jLookup (reactProcess
        (fun _ => some (Json.obj [("is_complex", Json.num 5), ("reason", Json.num 7)]))
        (strL "q") (Except.ok (strL "\x7bx\x7d"))) "complexity_analysis"
      = some (Json.obj [("reason", Json.num 7), ("indicators", Json.arr [])]) :=
  ⟨rfl, rfl, rfl⟩

/-- C3 (amended): when a successfully extracted object has `is_complex` true
and carries no `sub_problems` key, the normalizer synthesizes exactly one
sub-problem whose content is the original query, with the original-question
tag (the source's `'原始问题'`) and no dependencies; a normalized result with
`is_complex` true can have an empty `sub_problems` sequence only when the
model itself supplied an (empty) `sub_problems` value.  (As stated, the
claim's consequence fails: a supplied empty list is copied verbatim.) -/
theorem C3_synthesize_on_missing :
    (∀ (q : Str) (ext : List (String × Json)),
        List.lookup "sub_problems" ext = none →
        List.lookup "is_complex" ext = some (Json.bool true) →
        jLookup (formatFinalResult q ext) "sub_problems"
          = some (Json.arr [origElem q]))
    ∧ (∀ (q : Str) (ext : List (String × Json)),
        List.lookup "is_complex" ext = some (Json.bool true) →
        jLookup (formatFinalResult q ext) "sub_problems" = some (Json.arr []) →
        List.lookup "sub_problems" ext = some (Json.arr [])) := by
  constructor
  · intro q ext h1 h2
    simp only [formatFinalResult, objGet, h1, h2]
    rfl
  · intro q ext h1 h2
    cases hs : List.lookup "sub_problems" ext with
    | some v =>
      have hj : jLookup (formatFinalResult q ext) "sub_problems" = some v := by
        simp only [formatFinalResult, objGet, hs]
        rfl
      rw [hj] at h2
      exact h2
    | none =>
      have hj : jLookup (formatFinalResult q ext) "sub_problems"
          = some (Json.arr [origElem q]) := by
        simp only [formatFinalResult, objGet, h1, hs]
        rfl
      rw [hj] at h2
      exact absurd h2 (by simp)

/-- Witness for C3: an extracted object with `is_complex` true and no
`sub_problems` key gets the synthesized sub-problem, and an extracted object
carrying an explicitly empty `sub_problems` list is the only way an
`is_complex`-true result ends up with empty `sub_problems`. -/
theorem C3_witness :
    jLookup (formatFinalResult (strL "如何从零开始学习Python并找到工作？")
        [("is_complex", Json.bool true)]) "sub_problems"
      = some (Json.arr [origElem (strL "如何从零开始学习Python并找到工作？")])
    ∧ List.lookup "sub_problems"
        [("is_complex", Json.bool true), ("sub_problems", Json.arr [])]
      = some (Json.arr []) :=
  ⟨C3_synthesize_on_missing.1 _ _ rfl rfl,
   C3_synthesize_on_missing.2 (strL "q")
     [("is_complex", Json.bool true), ("sub_problems", Json.arr [])] rfl rfl⟩

/-- Counterexample to C3 as stated: an extracted object with `is_complex`
true and a model-supplied empty `sub_problems` list yields a result whose
`is_complex` is true and whose `sub_problems` sequence is empty. -/
theorem C3_empty_subproblems_cex :
    jLookup (formatFinalResult (strL "q")
        [("is_complex", Json.bool true), ("sub_problems", Json.arr [])])
        "is_complex" = some (Json.bool true)
    ∧ jLookup (formatFinalResult (strL "q")
        [("is_complex", Json.bool true), ("sub_problems", Json.arr [])])
        "sub_problems" = some (Json.arr []) :=
  ⟨rfl, rfl⟩

/-- C4 (amended): on the single-shot path, every result whose `is_complex`
is false has exactly one sub-problem whose content equals the original query,
with the simple tag (the source's `'简单问题'`) and empty dependencies; on
the agent-loop path a result with `is_complex` false instead carries the
model-supplied `sub_problems` value verbatim when the key is present, and an
empty sequence otherwise.  (As stated, the claim fails on the agent-loop
path.) -/
theorem C4_simple_verdict_amended :
    (∀ (parse : Str → Option Json) (compRun decompRun : Except Str Str)
        (q : Str) (r : Json),
        simpleProcess parse compRun decompRun q = Except.ok r →
        jLookup r "is_complex" = some (Json.bool false) →
        jLookup r "sub_problems" = some (Json.arr [simpleElem q]))
    ∧ (∀ (q : Str) (ext : List (String × Json)),
        jLookup (formatFinalResult q ext) "is_complex" = some (Json.bool false) →
        jLookup (formatFinalResult q ext) "sub_problems"
          = some ((List.lookup "sub_problems" ext).getD (Json.arr []))) := by
  constructor
  · intro parse compRun decompRun q r hr hic
    cases compRun with
    | error e => simp [simpleProcess] at hr
    | ok compStr =>
      cases hp : parse compStr with
      | none =>
        have heval : simpleProcess parse (Except.ok compStr) decompRun q
            = Except.ok (simpleResult q (Json.bool false) (Json.arr [simpleElem q])
                (Json.str (strL "解析失败")) (Json.arr [])) := by
          simp only [simpleProcess, hp]
          rfl
        rw [heval] at hr
        injection hr with h
        rw [← h]
        rfl
      | some j =>
        cases j with
        | obj ckvs =>
          cases ht : pyTruthy (objGet ckvs "is_complex" (Json.bool false)) with
          | false =>
            have heval : simpleProcess parse (Except.ok compStr) decompRun q
                = Except.ok (simpleResult q (objGet ckvs "is_complex" (Json.bool false))
                    (Json.arr [simpleElem q]) (objGet ckvs "reason" (Json.str []))
                    (objGet ckvs "indicators" (Json.arr []))) := by
              simp only [simpleProcess, hp, ht]
              rfl
            rw [heval] at hr
            injection hr with h
            rw [← h]
            rfl
          | true =>
            cases decompRun with
            | error e =>
              have heval : simpleProcess parse (Except.ok compStr) (Except.error e) q
                  = Except.error e := by
                simp [simpleProcess, hp, ht]
              rw [heval] at hr
              cases hr
            | ok decompStr =>
              have hfalse : ∀ sp,
                  r = simpleResult q (objGet ckvs "is_complex" (Json.bool false)) sp
                        (objGet ckvs "reason" (Json.str []))
                        (objGet ckvs "indicators" (Json.arr [])) → False := by
                intro sp hrr
                rw [hrr] at hic
                have hic' : objGet ckvs "is_complex" (Json.bool false)
                    = Json.bool false := by
                  have : jLookup (simpleResult q
                      (objGet ckvs "is_complex" (Json.bool false)) sp
                      (objGet ckvs "reason" (Json.str []))
                      (objGet ckvs "indicators" (Json.arr []))) "is_complex"
                      = some (objGet ckvs "is_complex" (Json.bool false)) := rfl
                  rw [this] at hic
                  injection hic
                rw [hic'] at ht
                simp [pyTruthy] at ht
              cases hd : parse decompStr with
              | none =>
                have heval : simpleProcess parse (Except.ok compStr)
                    (Except.ok decompStr) q
                    = Except.ok (simpleResult q
                        (objGet ckvs "is_complex" (Json.bool false))
                        (Json.arr [origElem q]) (objGet ckvs "reason" (Json.str []))
                        (objGet ckvs "indicators" (Json.arr []))) := by
                  simp [simpleProcess, hp, ht, hd]
                rw [heval] at hr
                injection hr with h
                exact absurd (h.symm) (fun hh => hfalse _ hh)
              | some dj =>
                cases dj with
                | obj dkvs =>
                  have heval : simpleProcess parse (Except.ok compStr)
                      (Except.ok decompStr) q
                      = Except.ok (simpleResult q
                          (objGet ckvs "is_complex" (Json.bool false))
                          (objGet dkvs "sub_problems" (Json.arr []))
                          (objGet ckvs "reason" (Json.str []))
                          (objGet ckvs "indicators" (Json.arr []))) := by
                    simp [simpleProcess, hp, ht, hd]
                  rw [heval] at hr
                  injection hr with h
                  exact absurd (h.symm) (fun hh => hfalse _ hh)
                | null =>
                  have heval : simpleProcess parse (Except.ok compStr)
                      (Except.ok decompStr) q = Except.error attributeErrorMsg := by
                    simp [simpleProcess, hp, ht, hd]
                  rw [heval] at hr
                  cases hr
                | bool b =>
                  have heval : simpleProcess parse (Except.ok compStr)
                      (Except.ok decompStr) q = Except.error attributeErrorMsg := by
                    simp [simpleProcess, hp, ht, hd]
                  rw [heval] at hr
                  cases hr
                | num n =>
                  have heval : simpleProcess parse (Except.ok compStr)
                      (Except.ok decompStr) q = Except.error attributeErrorMsg := by
                    simp [simpleProcess, hp, ht, hd]
                  rw [heval] at hr
                  cases hr
                | str s =>
                  have heval : simpleProcess parse (Except.ok compStr)
                      (Except.ok decompStr) q = Except.error attributeErrorMsg := by
                    simp [simpleProcess, hp, ht, hd]
                  rw [heval] at hr
                  cases hr
                | arr l =>
                  have heval : simpleProcess parse (Except.ok compStr)
                      (Except.ok decompStr) q = Except.error attributeErrorMsg := by
                    simp [simpleProcess, hp, ht, hd]
                  rw [heval] at hr
                  cases hr
        | null =>
          have heval : simpleProcess parse (Except.ok compStr) decompRun q
              = Except.error attributeErrorMsg := by
            simp [simpleProcess, hp]
          rw [heval] at hr
          cases hr
        | bool b =>
          have heval : simpleProcess parse (Except.ok compStr) decompRun q
              = Except.error attributeErrorMsg := by
            simp [simpleProcess, hp]
          rw [heval] at hr
          cases hr
        | num n =>
          have heval : simpleProcess parse (Except.ok compStr) decompRun q
              = Except.error attributeErrorMsg := by
            simp [simpleProcess, hp]
          rw [heval] at hr
          cases hr
        | str s =>
          have heval : simpleProcess parse (Except.ok compStr) decompRun q
              = Except.error attributeErrorMsg := by
            simp [simpleProcess, hp]
          rw [heval] at hr
          cases hr
        | arr l =>
          have heval : simpleProcess parse (Except.ok compStr) decompRun q
              = Except.error attributeErrorMsg := by
            simp [simpleProcess, hp]
          rw [heval] at hr
          cases hr
  · intro q ext hic
    cases hs : List.lookup "sub_problems" ext with
    | some v =>
      simp only [formatFinalResult, objGet, hs]
      rfl
    | none =>
      have hic' : coerceIsComplex ((List.lookup "is_complex" ext).getD
          (Json.bool false)) = Json.bool false := by
        have : jLookup (formatFinalResult q ext) "is_complex"
            = some (coerceIsComplex ((List.lookup "is_complex" ext).getD
                (Json.bool false))) := by
          simp only [formatFinalResult, objGet]
          rfl
        rw [this] at hic
        injection hic
      simp only [formatFinalResult, objGet, hs, hic']
      rfl

/-- Witness for C4: a concrete simple verdict on each path. -/
theorem C4_witness :
    jLookup (simpleResult (strL "今天星期几？") (Json.bool false)
        (Json.arr [simpleElem (strL "今天星期几？")])
        (Json.str (strL "无需拆解")) (Json.arr [])) "sub_problems"
      = some (Json.arr [simpleElem (strL "今天星期几？")])
    ∧ jLookup (formatFinalResult (strL "今天星期几？")
          [("is_complex", Json.bool false)]) "sub_problems"
      = some ((List.lookup "sub_problems"
          ([("is_complex", Json.bool false)] : List (String × Json))).getD
            (Json.arr [])) :=
  ⟨C4_simple_verdict_amended.1
      (fun _ => some (Json.obj [("is_complex", Json.bool false),
        ("reason", Json.str (strL "无需拆解"))]))
      (Except.ok []) (Except.ok []) (strL "今天星期几？") _ rfl rfl,
   C4_simple_verdict_amended.2 (strL "今天星期几？")
      [("is_complex", Json.bool false)] rfl⟩

/-- Counterexample to C4 as stated: on the agent-loop path an extracted
object with `is_complex` false and no `sub_problems` key yields a result
whose `is_complex` is false but whose `sub_problems` sequence is empty
rather than the claimed single-element sequence. -/
theorem C4_react_empty_cex :
    jLookup (formatFinalResult (strL "今天星期几？")
        [("is_complex", Json.bool false), ("reason", Json.str (strL "ok"))])
        "is_complex" = some (Json.bool false)
    ∧ jLookup (formatFinalResult (strL "今天星期几？")
        [("is_complex", Json.bool false), ("reason", Json.str (strL "ok"))])
        "sub_problems" = some (Json.arr []) :=
  ⟨rfl, rfl⟩
